import Mathlib

/-!
Shallow embedding of the lazy-image core of `src/image/SkImage_Lazy.cpp`.

Machine pointers are modelled as natural-number addresses with `0` for the
null pointer; `SkColorSpace` objects are modelled by their content (a `Nat`),
with `Option` for a possibly-null `sk_sp<SkColorSpace>`; the process-wide
`SkNextID::ImageID()` counter is threaded explicitly as a `nextID : Nat`
argument returned incremented whenever the source allocates a fresh id.
External collaborators (the generator, the caches, the GPU) enter as explicit
inputs holding the answers their calls would return.
-/

namespace Skia

/-- Image metadata, as in `SkImageInfo`: dimensions, color type, alpha type
and a possibly-null color space. Color types and alpha types are opaque tags;
a color space is modelled by its content so that `SkColorSpace::Equals` is
content equality. -/
structure SkImageInfo where
  width : Int
  height : Int
  colorType : Nat
  alphaType : Nat
  colorSpace : Option Nat
deriving DecidableEq

/-- `SkImageInfo::isEmpty`: true when either dimension is not positive. -/
def SkImageInfo.isEmpty (i : SkImageInfo) : Bool :=
  decide (i.width ≤ 0) || decide (i.height ≤ 0)

/-- `SkImageInfo::makeColorType`. -/
def SkImageInfo.makeColorType (i : SkImageInfo) (ct : Nat) : SkImageInfo :=
  { i with colorType := ct }

/-- `SkImageInfo::makeColorSpace` with a non-null `sk_sp<SkColorSpace>`. -/
def SkImageInfo.makeColorSpace (i : SkImageInfo) (cs : Nat) : SkImageInfo :=
  { i with colorSpace := some cs }

/-- `SkColorSpace::Equals`: two null pointers are equal, a null and a
non-null pointer are not, and two non-null pointers compare by content. -/
def SkColorSpaceEquals : Option Nat → Option Nat → Bool
  | none, none => true
  | some a, some b => a == b
  | _, _ => false

/-- The `SharedGenerator` envelope: the wrapped generator's constant
`getInfo()` data and `uniqueID()`, together with the answer its
`refEncodedData()` would give (`none` for a null `sk_sp<SkData>`).
The serializing mutex has no observable content in this sequential model. -/
structure SharedGenerator where
  width : Int
  height : Int
  colorType : Nat
  alphaType : Nat
  colorSpace : Option Nat
  uniqueID : Nat
  encoded : Option Nat
deriving DecidableEq

/-- `SharedGenerator::getInfo`, the generator's constant image info. -/
def SharedGenerator.getInfo (g : SharedGenerator) : SkImageInfo :=
  ⟨g.width, g.height, g.colorType, g.alphaType, g.colorSpace⟩

/-- `SkImage_Lazy::Validator`: from a possibly-null shared generator and the
requested overrides, derive the effective `(info, uniqueID)` or fail.  A
color-type override equal to the generator's native color type is treated as
absent; if any override remains, it is overlaid on the info and a fresh id is
taken from the counter.  Returns the validator outcome (falsy = `none`)
together with the new counter. -/
def validate (gen : Option SharedGenerator) (colorType : Option Nat)
    (colorSpace : Option Nat) (nextID : Nat) :
    Option (SharedGenerator × SkImageInfo × Nat) × Nat :=
  match gen with
  | none => (none, nextID)
  | some g =>
    let info := g.getInfo
    if info.isEmpty then (none, nextID)
    else
      let uid := g.uniqueID
      let ctOv := if colorType = some info.colorType then none else colorType
      if ctOv.isSome || colorSpace.isSome then
        let info := match ctOv with
          | some ct => info.makeColorType ct
          | none => info
        let info := match colorSpace with
          | some cs => info.makeColorSpace cs
          | none => info
        (some (g, info, nextID), nextID + 1)
      else
        (some (g, info, uid), nextID)

/-- A lazy image: its shared generator, derived info and unique id (from the
`Validator`); the mutable recolor-memo slot and the id listeners live outside
the structure and are threaded through the operations that touch them. -/
structure SkImage_Lazy where
  shared : SharedGenerator
  info : SkImageInfo
  uniqueID : Nat
deriving DecidableEq

/-- `SkImage::MakeFromGenerator`: run the validator with no overrides and
construct the image when it is truthy. -/
def MakeFromGenerator (gen : Option SharedGenerator) (nextID : Nat) :
    Option SkImage_Lazy × Nat :=
  match validate gen none none nextID with
  | (none, n) => (none, n)
  | (some (g, i, uid), n) => (some ⟨g, i, uid⟩, n)

/-- The miss branch of `onMakeColorTypeAndColorSpace`: run the validator on
the same shared generator with the target overrides; on success build the new
image and memoize it, on failure return no image and keep the memo slot. -/
def onMakeCTCSMiss (img : SkImage_Lazy) (targetCT : Nat) (targetCS : Option Nat)
    (memo : Option SkImage_Lazy) (nextID : Nat) :
    Option SkImage_Lazy × Option SkImage_Lazy × Nat :=
  match validate (some img.shared) (some targetCT) targetCS nextID with
  | (none, n) => (none, memo, n)
  | (some (g, i, uid), n) =>
      let result : SkImage_Lazy := ⟨g, i, uid⟩
      (some result, some result, n)

/-- `SkImage_Lazy::onMakeColorTypeAndColorSpace`: under the recolor mutex,
return the memoized child when its color type and color space match the
targets, otherwise revalidate and replace the memo slot on success.  Returns
`(returned image, new memo slot, new id counter)`. -/
def onMakeColorTypeAndColorSpace (img : SkImage_Lazy) (targetCT : Nat)
    (targetCS : Option Nat) (memo : Option SkImage_Lazy) (nextID : Nat) :
    Option SkImage_Lazy × Option SkImage_Lazy × Nat :=
  match memo with
  | some m =>
      if targetCT = m.info.colorType ∧ SkColorSpaceEquals targetCS m.info.colorSpace then
        (some m, memo, nextID)
      else
        onMakeCTCSMiss img targetCT targetCS memo nextID
  | none => onMakeCTCSMiss img targetCT targetCS memo nextID

/-- `SkImage_Lazy::onRefEncoded`: hand out the generator's encoded bytes only
when the image still has the generator's unique id (no recoloring applied). -/
def onRefEncoded (img : SkImage_Lazy) : Option Nat :=
  if img.shared.uniqueID = img.uniqueID then img.shared.encoded else none

/-- `SkImage::CachingHint` for the raster accessor. -/
inductive CachingHint where
  | allow
  | disallow
deriving DecidableEq

/-- The `SkBitmapCache`, keyed by the descriptor `SkBitmapCacheDesc::Make`
builds from the image's unique id; a value is the cached immutable bitmap's
pixel content. -/
def bmFind (cache : List (Nat × Nat)) (key : Nat) : Option Nat :=
  (cache.find? fun p => p.1 == key).map (·.2)

/-- The external answers one `getROPixels` call observes: whether
`SkBitmapCache::Alloc` hands out a record, whether the private
`tryAllocPixels` succeeds, whether the generator's `getPixels` succeeds, and
the pixel content the generator writes when it does. -/
structure ROPixelsEnv where
  cacheAlloc : Bool
  tryAllocPixels : Bool
  getPixels : Bool
  decoded : Nat

/-- `SkImage_Lazy::getROPixels`: consult the bitmap cache; on a miss either
decode into a cache-owned allocation and commit it (caching allowed) or into
a private immutable bitmap (caching disallowed).  Returns the produced bitmap
content (`none` = failure) and the bitmap cache after the call. -/
def getROPixels (img : SkImage_Lazy) (chint : CachingHint) (env : ROPixelsEnv)
    (cache : List (Nat × Nat)) : Option Nat × List (Nat × Nat) :=
  match bmFind cache img.uniqueID with
  | some bm => (some bm, cache)
  | none =>
      if chint = CachingHint.allow then
        if env.cacheAlloc && env.getPixels then
          (some env.decoded, (img.uniqueID, env.decoded) :: cache)
        else
          (none, cache)
      else
        if env.tryAllocPixels && env.getPixels then
          (some env.decoded, cache)
        else
          (none, cache)

/-- `SkYUVASizeInfo`, restricted to what `getPlanes` reads: per-plane row
bytes (`fWidthBytes`) and heights (`fSizes[i].fHeight`) for the four plane
slots. -/
structure SkYUVASizeInfo where
  wb0 : Nat
  wb1 : Nat
  wb2 : Nat
  wb3 : Nat
  h0 : Nat
  h1 : Nat
  h2 : Nat
  h3 : Nat
deriving DecidableEq

/-- Row bytes of plane `i` (`fWidthBytes[i]`); indices past 3 read slot 3. -/
def SkYUVASizeInfo.widthBytes (s : SkYUVASizeInfo) : Nat → Nat
  | 0 => s.wb0
  | 1 => s.wb1
  | 2 => s.wb2
  | _ => s.wb3

/-- Height of plane `i` (`fSizes[i].fHeight`); indices past 3 read slot 3. -/
def SkYUVASizeInfo.planeHeight (s : SkYUVASizeInfo) : Nat → Nat
  | 0 => s.h0
  | 1 => s.h1
  | 2 => s.h2
  | _ => s.h3

/-- Plane addresses of the cache-hit branch of `getPlanes`, transcribed from
its loop: plane 0 is the backing data's address, an empty plane is the null
pointer 0, and a non-empty plane is the previous slot's address plus the
previous slot's `row_bytes * height` — whatever the previous slot held. -/
def hitPlanes (base : Nat) (s : SkYUVASizeInfo) : Nat → Nat
  | 0 => base
  | i + 1 =>
      if s.widthBytes (i + 1) = 0 then 0
      else hitPlanes base s i + s.widthBytes i * s.planeHeight i

/-- Plane addresses of the cache-miss branch of `getPlanes`, transcribed from
its (textually separate) loop over the freshly allocated buffer. -/
def missPlanes (base : Nat) (s : SkYUVASizeInfo) : Nat → Nat
  | 0 => base
  | i + 1 =>
      if s.widthBytes (i + 1) = 0 then 0
      else missPlanes base s i + s.widthBytes i * s.planeHeight i

/-- `totalSize` of the miss branch: the sum of `row_bytes * height` over the
four plane slots. -/
def totalSize (s : SkYUVASizeInfo) : Nat :=
  s.wb0 * s.h0 + s.wb1 * s.h1 + s.wb2 * s.h2 + s.wb3 * s.h3

/-- A `SkYUVPlanesCache` value: the backing `SkCachedData`'s address and the
cached `SkYUVPlanesCache::Info` size data. -/
structure YuvEntry where
  base : Nat
  sizeInfo : SkYUVASizeInfo
deriving DecidableEq

/-- `SkYUVPlanesCache::FindAndRef` over the cache modelled as an association
list keyed by unique id. -/
def yuvFind (cache : List (Nat × YuvEntry)) (key : Nat) : Option YuvEntry :=
  (cache.find? fun p => p.1 == key).map (·.2)

/-- The external answers one `getPlanes` call observes: the result of
`queryYUVA8` (`none` = refused), the address `SkResourceCache::NewCachedData`
returns for a requested byte count (`none` = null), and whether
`getYUVA8Planes` succeeds. -/
structure PlanesEnv where
  queryResult : Option SkYUVASizeInfo
  allocResult : Nat → Option Nat
  getPlanesOk : Bool

/-- Outcome of a `getPlanes` call: the size info and the four plane addresses
on success, a value-returned failure, or the dereference of a null
`NewCachedData` result (the source reads `data->writable_data()` without a
null check). -/
inductive PlanesOutcome where
  | ok (sizeInfo : SkYUVASizeInfo) (p0 p1 p2 p3 : Nat)
  | fail
  | nullDeref
deriving DecidableEq

/-- `SkImage_Lazy::getPlanes`: look the YUV planes cache up under the
generator's unique id; on a hit rebuild the plane addresses over the cached
backing data; on a miss query the generator, allocate one contiguous buffer
of `totalSize` bytes, lay the planes out over it, fetch them, and add the
entry to the cache under the image's unique id.  Returns the outcome and the
YUV planes cache after the call. -/
def getPlanes (img : SkImage_Lazy) (env : PlanesEnv)
    (cache : List (Nat × YuvEntry)) : PlanesOutcome × List (Nat × YuvEntry) :=
  match yuvFind cache img.shared.uniqueID with
  | some e =>
      (PlanesOutcome.ok e.sizeInfo (hitPlanes e.base e.sizeInfo 0)
        (hitPlanes e.base e.sizeInfo 1) (hitPlanes e.base e.sizeInfo 2)
        (hitPlanes e.base e.sizeInfo 3), cache)
  | none =>
      match env.queryResult with
      | none => (PlanesOutcome.fail, cache)
      | some s =>
          match env.allocResult (totalSize s) with
          | none => (PlanesOutcome.nullDeref, cache)
          | some base =>
              if env.getPlanesOk then
                (PlanesOutcome.ok s (missPlanes base s 0) (missPlanes base s 1)
                  (missPlanes base s 2) (missPlanes base s 3),
                  (img.uniqueID, ⟨base, s⟩) :: cache)
              else
                (PlanesOutcome.fail, cache)

/-- The claim's layout formula for a non-empty plane `i`: the address of
plane 0 plus the sum over `j < i` of `row_bytes[j] * height[j]`.  The sum is
written recursively so that it evaluates by reduction. -/
def planeOffsetSum (s : SkYUVASizeInfo) : Nat → Nat
  | 0 => 0
  | i + 1 => planeOffsetSum s i + s.widthBytes i * s.planeHeight i

/-- The plane pointer the specification's layout rule predicts for a
non-empty plane `i`. -/
def specPlanePtr (base : Nat) (s : SkYUVASizeInfo) (i : Nat) : Nat :=
  base + planeOffsetSum s i

/-- `GrImageTexGenPolicy`. -/
inductive GrImageTexGenPolicy where
  | draw
  | newUncachedBudgeted
  | newUncachedUnbudgeted
deriving DecidableEq

/-- The `LockTexturePath` histogram values of `lockTextureProxyView`
(`kCompressed` is deprecated and never recorded). -/
inductive LockTexturePath where
  | failure
  | preExisting
  | native
  | compressed
  | yuv
  | rgba
deriving DecidableEq

/-- A `GrColorType`, keeping `kRGBA_8888` apart from every other value. -/
inductive GrColorType where
  | rgba8888
  | other (tag : Nat)
deriving DecidableEq

/-- A GPU texture proxy; a `GrSurfaceProxyView` is modelled by its proxy
(origin and swizzle carry no claim-relevant state). -/
structure GrSurfaceProxy where
  pid : Nat
  mipmapped : Bool
deriving DecidableEq

/-- `SkImage_Lazy::colorTypeOfLockTextureProxy`: convert the image's color
type with `SkColorTypeToGrColorType` and substitute `kRGBA_8888` when the
caps' default backend format for that color type is invalid.  The conversion
and the caps query are external and passed in as functions. -/
def colorTypeOfLockTextureProxy (toGpu : Nat → GrColorType)
    (validFormat : GrColorType → Bool) (colorType : Nat) : GrColorType :=
  let ct := toGpu colorType
  if validFormat ct then ct else GrColorType.rgba8888

/-- The external answers one `lockTextureProxyView` call observes.  The
unique-key binding of the proxy provider is threaded separately as the call's
state.  Fields that the source computes an argument for first
(budget for the YUV path, caching hint and maker policy for the bitmap path)
are functions of that argument. -/
structure CascadeEnv where
  texGenPolicy : GrImageTexGenPolicy
  mipMapped : Bool
  copyResult : Option GrSurfaceProxy
  nativeResult : Option GrSurfaceProxy
  disableGpuYUVConversion : Bool
  yuvResult : Bool → Option GrSurfaceProxy
  roPixelsResult : CachingHint → Bool
  makerResult : GrImageTexGenPolicy → Option GrSurfaceProxy
  toGpu : Nat → GrColorType
  validFormat : GrColorType → Bool
  imageColorType : Nat

/-- Result of one `lockTextureProxyView` call: the histogram values recorded
(in order), the returned view (`none` = the empty view), the proxy the
image's unique key is bound to after the call, and the `GrColorType` the call
computed. -/
structure CascadeResult where
  records : List LockTexturePath
  view : Option GrSurfaceProxy
  binding : Option GrSurfaceProxy
  usedCT : GrColorType
deriving DecidableEq

/-- The `installKey` lambda: when the unique key is valid, bind it to the
given proxy; otherwise leave the binding as it is. -/
def installKey (keyValid : Bool) (binding : Option GrSurfaceProxy)
    (v : GrSurfaceProxy) : Option GrSurfaceProxy :=
  if keyValid then some v else binding

/-- Stage 4 of `lockTextureProxyView`: decode a bitmap via `getROPixels`
(caching allowed only under the `kDraw` policy) and upload it with
`GrBitmapTextureMaker` under an always-uncached maker policy; falling through
records the `Failure` histogram value and returns the empty view. -/
def lockStage4 (env : CascadeEnv) (ct : GrColorType)
    (binding : Option GrSurfaceProxy) : CascadeResult :=
  let keyValid := env.texGenPolicy = GrImageTexGenPolicy.draw
  let hint := if env.texGenPolicy = GrImageTexGenPolicy.draw then
    CachingHint.allow else CachingHint.disallow
  if env.roPixelsResult hint then
    let makerPolicy := if env.texGenPolicy = GrImageTexGenPolicy.newUncachedUnbudgeted then
      GrImageTexGenPolicy.newUncachedUnbudgeted else GrImageTexGenPolicy.newUncachedBudgeted
    match env.makerResult makerPolicy with
    | some v => ⟨[LockTexturePath.rgba], some v, installKey keyValid binding v, ct⟩
    | none => ⟨[LockTexturePath.failure], none, binding, ct⟩
  else
    ⟨[LockTexturePath.failure], none, binding, ct⟩

/-- Stage 3 of `lockTextureProxyView`: the YUV planar path, skipped when a
mipmapped texture was requested or the context options disable GPU YUV
conversion; budgeted unless the policy is `kNew_Uncached_Unbudgeted`. -/
def lockStage3 (env : CascadeEnv) (ct : GrColorType)
    (binding : Option GrSurfaceProxy) : CascadeResult :=
  let keyValid := env.texGenPolicy = GrImageTexGenPolicy.draw
  if env.mipMapped = false ∧ env.disableGpuYUVConversion = false then
    let budgeted := if env.texGenPolicy = GrImageTexGenPolicy.newUncachedUnbudgeted then
      false else true
    match env.yuvResult budgeted with
    | some v => ⟨[LockTexturePath.yuv], some v, installKey keyValid binding v, ct⟩
    | none => lockStage4 env ct binding
  else
    lockStage4 env ct binding

/-- Stage 2 of `lockTextureProxyView`: the generator's native
`generateTexture`, under the shared-generator mutex. -/
def lockStage2 (env : CascadeEnv) (ct : GrColorType)
    (binding : Option GrSurfaceProxy) : CascadeResult :=
  let keyValid := env.texGenPolicy = GrImageTexGenPolicy.draw
  match env.nativeResult with
  | some v => ⟨[LockTexturePath.native], some v, installKey keyValid binding v, ct⟩
  | none => lockStage3 env ct binding

/-- `SkImage_Lazy::lockTextureProxyView`: the four-stage cascade.  Stage 1
(checked only when the policy is `kDraw`, which makes the unique key valid)
returns a cached proxy, upgrading it to a mipmapped copy when one was
requested — re-keying onto the copy on success and falling back to the
non-mipped view when the copy fails. -/
def lockTextureProxyView (env : CascadeEnv) (binding : Option GrSurfaceProxy) :
    CascadeResult :=
  let keyValid := env.texGenPolicy = GrImageTexGenPolicy.draw
  let ct := colorTypeOfLockTextureProxy env.toGpu env.validFormat env.imageColorType
  if keyValid then
    match binding with
    | some proxy =>
        if env.mipMapped = false ∨ proxy.mipmapped = true then
          ⟨[LockTexturePath.preExisting], some proxy, binding, ct⟩
        else
          match env.copyResult with
          | none => ⟨[LockTexturePath.preExisting], some proxy, binding, ct⟩
          | some mv =>
              ⟨[LockTexturePath.preExisting], some mv, installKey keyValid none mv, ct⟩
    | none => lockStage2 env ct binding
  else
    lockStage2 env ct binding

/-- The claim's reading of stages 2–4 of the cascade: the first of native
generation, the (possibly skipped) YUV path and the RGBA bitmap fallback that
succeeds; failure when none does. -/
def lockTailPath (env : CascadeEnv) : LockTexturePath :=
  if env.nativeResult.isSome then
    LockTexturePath.native
  else if env.mipMapped = false ∧ env.disableGpuYUVConversion = false ∧
      (env.yuvResult (if env.texGenPolicy = GrImageTexGenPolicy.newUncachedUnbudgeted then
        false else true)).isSome then
    LockTexturePath.yuv
  else if env.roPixelsResult (if env.texGenPolicy = GrImageTexGenPolicy.draw then
        CachingHint.allow else CachingHint.disallow) = true ∧
      (env.makerResult (if env.texGenPolicy = GrImageTexGenPolicy.newUncachedUnbudgeted then
        GrImageTexGenPolicy.newUncachedUnbudgeted else
        GrImageTexGenPolicy.newUncachedBudgeted)).isSome then
    LockTexturePath.rgba
  else
    LockTexturePath.failure

/-- The claim's reading of the cascade: the first stage, in cascade order,
that succeeds — the cache hit when the key is valid and a proxy is bound to
it, else the first of the remaining stages. -/
def lockTexturePathSpec (env : CascadeEnv) (binding : Option GrSurfaceProxy) :
    LockTexturePath :=
  if env.texGenPolicy = GrImageTexGenPolicy.draw ∧ binding.isSome then
    LockTexturePath.preExisting
  else
    lockTailPath env

/-! ## Concrete fixtures

Small concrete values used by the witness and counterexample theorems to
evaluate the model at specific inputs. -/

/-- A 1×1 generator with color type 0, color space `some 0`, unique id 7 and
encoded bytes present. -/
def sampleGen : SharedGenerator := ⟨1, 1, 0, 0, some 0, 7, some 99⟩

/-- The base lazy image over `sampleGen` (inherits unique id 7). -/
def sampleImage : SkImage_Lazy := ⟨sampleGen, sampleGen.getInfo, 7⟩

/-- The recoloring of `sampleImage` to color type 1 and color space `some 5`,
carrying the fresh unique id 8. -/
def recoloredImage : SkImage_Lazy := ⟨sampleGen, ⟨1, 1, 1, 0, some 5⟩, 8⟩

/-- A generator whose info is empty (width 0), so the validator refuses it. -/
def emptyGen : SharedGenerator := ⟨0, 1, 0, 0, none, 3, none⟩

/-- An image structure over the empty-info generator (not constructible
through `MakeFromGenerator`; used to exercise the failed-validation path). -/
def emptyGenImage : SkImage_Lazy := ⟨emptyGen, emptyGen.getInfo, 3⟩

/-- YUV sizes with three non-empty planes (row bytes 4, 2, 2; heights
4, 2, 2) and an empty fourth slot. -/
def sampleSize : SkYUVASizeInfo := ⟨4, 2, 2, 0, 4, 2, 2, 0⟩

/-- A `getPlanes` environment whose query succeeds with `sampleSize`, whose
allocation lands at address 100 and whose plane fetch succeeds. -/
def samplePlanesEnv : PlanesEnv := ⟨some sampleSize, fun _ => some 100, true⟩

/-- A `getROPixels` environment where everything succeeds and the generator
decodes content 42. -/
def sampleROEnv : ROPixelsEnv := ⟨true, true, true, 42⟩

/-- A cascade environment under the `kDraw` policy in which every stage
refuses. -/
def allRefuseEnv : CascadeEnv :=
  ⟨GrImageTexGenPolicy.draw, false, none, none, false, fun _ => none, fun _ => false,
    fun _ => none, GrColorType.other, fun _ => true, 0⟩

/-! ## Helper lemmas -/

/-- The three outcomes of the validator on a non-null generator: falsy (empty
info), inherit the generator's id, or allocate the fresh id `nextID`. -/
theorem validate_cases (g : SharedGenerator) (ctOv csOv : Option Nat) (nextID : Nat) :
    validate (some g) ctOv csOv nextID = (none, nextID) ∨
    (∃ i, validate (some g) ctOv csOv nextID = (some (g, i, g.uniqueID), nextID)) ∨
    (∃ i, validate (some g) ctOv csOv nextID = (some (g, i, nextID), nextID + 1)) := by
  unfold validate
  by_cases he : (g.getInfo).isEmpty
  · left
    simp [he]
  · by_cases hov : ((if ctOv = some (g.getInfo).colorType then none else ctOv).isSome
        || csOv.isSome)
    · right; right
      exact ⟨_, by simp [he, hov]; try rfl⟩
    · right; left
      exact ⟨_, by simp [he, hov]; try rfl⟩

/-- A falsy validator outcome leaves the id counter untouched. -/
theorem validate_none_eq (g : SharedGenerator) (ctOv csOv : Option Nat) (nextID : Nat)
    (h : (validate (some g) ctOv csOv nextID).1 = none) :
    validate (some g) ctOv csOv nextID = (none, nextID) := by
  rcases validate_cases g ctOv csOv nextID with h1 | ⟨i, h1⟩ | ⟨i, h1⟩ <;>
    rw [h1] at h ⊢ <;> simp_all

/-- With a non-null color-space override and non-empty generator info, the
validator always takes the override branch and allocates the fresh id. -/
theorem validate_csSome_fresh (g : SharedGenerator) (ctOv : Option Nat) (c : Nat)
    (nextID : Nat) (hine : (g.getInfo).isEmpty = false) :
    ∃ i, validate (some g) ctOv (some c) nextID = (some (g, i, nextID), nextID + 1) := by
  unfold validate
  exact ⟨_, by simp [hine]; try rfl⟩

/-- A successful validator outcome with a non-null color-space override
carries the fresh id and increments the counter. -/
theorem validate_csSome_of_some (g : SharedGenerator) (ctOv : Option Nat) (c : Nat)
    (nextID : Nat) (r : SharedGenerator × SkImageInfo × Nat) (n : Nat)
    (h : validate (some g) ctOv (some c) nextID = (some r, n)) :
    r.1 = g ∧ r.2.2 = nextID ∧ n = nextID + 1 := by
  by_cases he : (g.getInfo).isEmpty
  · unfold validate at h
    simp [he] at h
  · obtain ⟨i, hv⟩ := validate_csSome_fresh g ctOv c nextID (by simpa using he)
    rw [hv] at h
    obtain ⟨h1, h2⟩ := Prod.mk.injEq .. ▸ h
    cases Option.some.injEq .. ▸ h1
    exact ⟨rfl, rfl, h2.symm ▸ rfl⟩

/-- A comparison against a non-null color space via `SkColorSpace::Equals`
succeeds exactly on an equal non-null color space. -/
theorem SkColorSpaceEquals_some_iff (a : Nat) (b : Option Nat) :
    SkColorSpaceEquals (some a) b = true ↔ b = some a := by
  cases b <;> simp [SkColorSpaceEquals]
  exact eq_comm

/-- Shape of a successful miss branch of the recoloring: the new image is
built on the same shared generator, it is memoized, and its unique id is
either inherited from the generator (counter untouched) or the fresh
`nextID` (counter incremented). -/
theorem onMakeCTCSMiss_of_some (img : SkImage_Lazy) (targetCT : Nat) (targetCS : Option Nat)
    (memo : Option SkImage_Lazy) (nextID : Nat) (L2 : SkImage_Lazy)
    (memo2 : Option SkImage_Lazy) (n2 : Nat)
    (hcall : onMakeCTCSMiss img targetCT targetCS memo nextID = (some L2, memo2, n2)) :
    L2.shared = img.shared ∧ memo2 = some L2 ∧
    ((L2.uniqueID = img.shared.uniqueID ∧ n2 = nextID) ∨
      (L2.uniqueID = nextID ∧ n2 = nextID + 1)) := by
  unfold onMakeCTCSMiss at hcall
  rcases validate_cases img.shared (some targetCT) targetCS nextID with hv | ⟨i, hv⟩ | ⟨i, hv⟩ <;>
    rw [hv] at hcall
  · simp at hcall
  · simp only [Prod.mk.injEq, Option.some.injEq] at hcall
    obtain ⟨h1, h2, h3⟩ := hcall
    cases h1
    exact ⟨rfl, h2.symm, Or.inl ⟨rfl, h3.symm⟩⟩
  · simp only [Prod.mk.injEq, Option.some.injEq] at hcall
    obtain ⟨h1, h2, h3⟩ := hcall
    cases h1
    exact ⟨rfl, h2.symm, Or.inr ⟨rfl, h3.symm⟩⟩

/-- A successful miss branch with a non-null target color space always takes
the validator's override branch: the built image carries the fresh id. -/
theorem onMakeCTCSMiss_csSome (img : SkImage_Lazy) (targetCT c : Nat)
    (memo : Option SkImage_Lazy) (nextID : Nat) (L2 : SkImage_Lazy)
    (memo2 : Option SkImage_Lazy) (n2 : Nat)
    (hcall : onMakeCTCSMiss img targetCT (some c) memo nextID = (some L2, memo2, n2)) :
    L2.shared = img.shared ∧ L2.uniqueID = nextID ∧ memo2 = some L2 ∧ n2 = nextID + 1 := by
  unfold onMakeCTCSMiss at hcall
  rcases hv : validate (some img.shared) (some targetCT) (some c) nextID with ⟨o, n⟩
  rw [hv] at hcall
  cases o with
  | none => simp at hcall
  | some r =>
      obtain ⟨g, i, uid⟩ := r
      obtain ⟨hg, huid, hn⟩ :=
        validate_csSome_of_some img.shared (some targetCT) c nextID (g, i, uid) n hv
      simp only [Prod.mk.injEq, Option.some.injEq] at hcall
      obtain ⟨h1, h2, h3⟩ := hcall
      cases h1
      exact ⟨hg, huid, h2.symm, h3 ▸ hn⟩

/-! ## Claim theorems: identity, recoloring and encoded data -/

/-- C2 (counterexample).  The base image of a generator with color type `0`,
color space `some 0` and unique id `7` is recolored with targets equal to its
own color type and color space; the claim says the result keeps unique id
`7`, but the call allocates the fresh id `8`: the target color type is only
compared against the generator's native one, and a non-null color-space
target always counts as an override. -/
theorem C2_noop_recolor_counterexample :
    MakeFromGenerator (some ⟨1, 1, 0, 0, some 0, 7, some 99⟩) 8 =
      (some ⟨⟨1, 1, 0, 0, some 0, 7, some 99⟩, ⟨1, 1, 0, 0, some 0⟩, 7⟩, 8) ∧
    (⟨⟨1, 1, 0, 0, some 0, 7, some 99⟩, ⟨1, 1, 0, 0, some 0⟩, 7⟩ : SkImage_Lazy).info.colorType
      = 0 ∧
    (⟨⟨1, 1, 0, 0, some 0, 7, some 99⟩, ⟨1, 1, 0, 0, some 0⟩, 7⟩ : SkImage_Lazy).info.colorSpace
      = some 0 ∧
    (onMakeColorTypeAndColorSpace
        ⟨⟨1, 1, 0, 0, some 0, 7, some 99⟩, ⟨1, 1, 0, 0, some 0⟩, 7⟩ 0 (some 0) none 8).1.map
      SkImage_Lazy.uniqueID = some 8 ∧
    (⟨⟨1, 1, 0, 0, some 0, 7, some 99⟩, ⟨1, 1, 0, 0, some 0⟩, 7⟩ : SkImage_Lazy).uniqueID = 7 := by
  decide

/-- C2 (amended).  With a non-null target color space and the id counter's
freshness invariants: (a) a recoloring whose target `(ct, cs)` differs from
the image's returns an image with a different unique id; (b) but a recoloring
that changes nothing does not keep the unique id — when the memo slot misses,
a non-null color-space target forces the validator's override branch, so the
result always carries the fresh id `nextID`, distinct from the image's. -/
theorem C2_recolor_identity_amended :
    (∀ (L : SkImage_Lazy) (targetCT c : Nat) (memo : Option SkImage_Lazy)
        (nextID : Nat) (L2 : SkImage_Lazy) (memo2 : Option SkImage_Lazy) (n2 : Nat),
      L.uniqueID < nextID →
      (∀ m, memo = some m → m.uniqueID = L.uniqueID →
        m.info.colorType = L.info.colorType ∧ m.info.colorSpace = L.info.colorSpace) →
      ¬(targetCT = L.info.colorType ∧ some c = L.info.colorSpace) →
      onMakeColorTypeAndColorSpace L targetCT (some c) memo nextID = (some L2, memo2, n2) →
      L2.uniqueID ≠ L.uniqueID) ∧
    (∀ (L : SkImage_Lazy) (c nextID : Nat),
      (L.shared.getInfo).isEmpty = false →
      L.uniqueID < nextID →
      ∃ L2, onMakeColorTypeAndColorSpace L L.info.colorType (some c) none nextID =
          (some L2, some L2, nextID + 1) ∧
        L2.uniqueID = nextID ∧ L2.uniqueID ≠ L.uniqueID) := by
  constructor
  · intro L targetCT c memo nextID L2 memo2 n2 hL hmemo hdiff hcall
    cases memo with
    | some m =>
        by_cases hhit : (targetCT = m.info.colorType ∧
            SkColorSpaceEquals (some c) m.info.colorSpace = true)
        · rw [onMakeColorTypeAndColorSpace, if_pos hhit] at hcall
          simp only [Prod.mk.injEq, Option.some.injEq] at hcall
          obtain ⟨hm, -, -⟩ := hcall
          cases hm
          intro heq
          obtain ⟨hct, hcs⟩ := hmemo L2 rfl heq
          exact hdiff ⟨hhit.1.trans hct,
            ((SkColorSpaceEquals_some_iff c L2.info.colorSpace).1 hhit.2).symm.trans hcs⟩
        · rw [onMakeColorTypeAndColorSpace, if_neg hhit] at hcall
          obtain ⟨-, huid, -, -⟩ :=
            onMakeCTCSMiss_csSome L targetCT c (some m) nextID L2 memo2 n2 hcall
          exact huid ▸ Nat.ne_of_gt hL
    | none =>
        rw [onMakeColorTypeAndColorSpace] at hcall
        obtain ⟨-, huid, -, -⟩ :=
          onMakeCTCSMiss_csSome L targetCT c none nextID L2 memo2 n2 hcall
        exact huid ▸ Nat.ne_of_gt hL
  · intro L c nextID hine hlt
    obtain ⟨i, hv⟩ := validate_csSome_fresh L.shared (some L.info.colorType) c nextID hine
    refine ⟨⟨L.shared, i, nextID⟩, ?_, rfl, Nat.ne_of_gt hlt⟩
    rw [onMakeColorTypeAndColorSpace, onMakeCTCSMiss, hv]

/-- C7.  A lazy image's `onRefEncoded` can only return non-null bytes when
the image still has the shared generator's unique id; and any recoloring that
allocated a fresh unique id (the call incremented the id counter) yields an
image whose `onRefEncoded` is null. -/
theorem C7_ref_encoded_identity :
    (∀ L : SkImage_Lazy, onRefEncoded L ≠ none → L.uniqueID = L.shared.uniqueID) ∧
    (∀ (L : SkImage_Lazy) (targetCT : Nat) (targetCS : Option Nat)
        (memo : Option SkImage_Lazy) (nextID : Nat) (L2 : SkImage_Lazy)
        (memo2 : Option SkImage_Lazy) (n2 : Nat),
      L.shared.uniqueID < nextID →
      onMakeColorTypeAndColorSpace L targetCT targetCS memo nextID = (some L2, memo2, n2) →
      n2 = nextID + 1 →
      onRefEncoded L2 = none) := by
  constructor
  · intro L h
    rw [onRefEncoded] at h
    by_cases hid : L.shared.uniqueID = L.uniqueID
    · exact hid.symm
    · rw [if_neg hid] at h
      exact absurd rfl h
  · intro L targetCT targetCS memo nextID L2 memo2 n2 hg hcall hfresh
    have hmiss : onMakeCTCSMiss L targetCT targetCS memo nextID = (some L2, memo2, n2) := by
      cases memo with
      | some m =>
          by_cases hhit : (targetCT = m.info.colorType ∧
              SkColorSpaceEquals targetCS m.info.colorSpace = true)
          · rw [onMakeColorTypeAndColorSpace, if_pos hhit] at hcall
            simp only [Prod.mk.injEq, Option.some.injEq] at hcall
            exact absurd (hcall.2.2.trans hfresh) (Nat.succ_ne_self nextID).symm
          · rw [onMakeColorTypeAndColorSpace, if_neg hhit] at hcall
            exact hcall
      | none =>
          rw [onMakeColorTypeAndColorSpace] at hcall
          exact hcall
    obtain ⟨hshared, -, hcases⟩ :=
      onMakeCTCSMiss_of_some L targetCT targetCS memo nextID L2 memo2 n2 hmiss
    rcases hcases with ⟨-, hn⟩ | ⟨huid, -⟩
    · exact absurd (hn.symm.trans hfresh) (Nat.succ_ne_self nextID).symm
    · rw [onRefEncoded, hshared, huid]
      exact if_neg (Nat.ne_of_lt hg)

/-- C8.  The recolor memo slot of `onMakeColorTypeAndColorSpace`: a call
whose targets match the memoized child's color type and color space returns
that child with the memo slot and the id counter untouched (no new image is
constructed); every successful call leaves the returned image as the sole
memoized child (the most recent recoloring replaces the slot); a call whose
validation fails returns no image and leaves the memo slot and the counter
unchanged. -/
theorem C8_recolor_memo_slot :
    (∀ (L : SkImage_Lazy) (targetCT : Nat) (targetCS : Option Nat)
        (memo : Option SkImage_Lazy) (m : SkImage_Lazy) (nextID : Nat),
      memo = some m → targetCT = m.info.colorType →
      SkColorSpaceEquals targetCS m.info.colorSpace = true →
      onMakeColorTypeAndColorSpace L targetCT targetCS memo nextID = (some m, memo, nextID)) ∧
    (∀ (L : SkImage_Lazy) (targetCT : Nat) (targetCS : Option Nat)
        (memo : Option SkImage_Lazy) (nextID : Nat) (L2 : SkImage_Lazy)
        (memo2 : Option SkImage_Lazy) (n2 : Nat),
      onMakeColorTypeAndColorSpace L targetCT targetCS memo nextID = (some L2, memo2, n2) →
      memo2 = some L2) ∧
    (∀ (L : SkImage_Lazy) (targetCT : Nat) (targetCS : Option Nat)
        (memo : Option SkImage_Lazy) (nextID : Nat),
      (∀ m, memo = some m →
        ¬(targetCT = m.info.colorType ∧
          SkColorSpaceEquals targetCS m.info.colorSpace = true)) →
      (validate (some L.shared) (some targetCT) targetCS nextID).1 = none →
      onMakeColorTypeAndColorSpace L targetCT targetCS memo nextID = (none, memo, nextID)) := by
  refine ⟨?_, ?_, ?_⟩
  · intro L targetCT targetCS memo m nextID hmemo hct hcs
    subst hmemo
    rw [onMakeColorTypeAndColorSpace, if_pos ⟨hct, hcs⟩]
  · intro L targetCT targetCS memo nextID L2 memo2 n2 hcall
    cases memo with
    | some m =>
        by_cases hhit : (targetCT = m.info.colorType ∧
            SkColorSpaceEquals targetCS m.info.colorSpace = true)
        · rw [onMakeColorTypeAndColorSpace, if_pos hhit] at hcall
          simp only [Prod.mk.injEq, Option.some.injEq] at hcall
          obtain ⟨hm, hmm, -⟩ := hcall
          rw [← hmm, hm]
        · rw [onMakeColorTypeAndColorSpace, if_neg hhit] at hcall
          exact (onMakeCTCSMiss_of_some L targetCT targetCS (some m) nextID
            L2 memo2 n2 hcall).2.1
    | none =>
        rw [onMakeColorTypeAndColorSpace] at hcall
        exact (onMakeCTCSMiss_of_some L targetCT targetCS none nextID
          L2 memo2 n2 hcall).2.1
  · intro L targetCT targetCS memo nextID hnohit hval
    have hv := validate_none_eq L.shared (some targetCT) targetCS nextID hval
    cases memo with
    | some m =>
        rw [onMakeColorTypeAndColorSpace, if_neg (hnohit m rfl), onMakeCTCSMiss, hv]
    | none =>
        rw [onMakeColorTypeAndColorSpace, onMakeCTCSMiss, hv]

/-! ## Claim theorems: raster path -/

/-- C5.  A `getROPixels` call with the `kDisallow` caching hint never
populates the bitmap cache: the cache after the call is the cache before it
(so an absent entry stays absent), regardless of whether the decode succeeds;
on success the pixels are produced into a private bitmap instead. -/
theorem C5_disallow_hint_no_cache (img : SkImage_Lazy) (env : ROPixelsEnv)
    (cache : List (Nat × Nat)) :
    (getROPixels img CachingHint.disallow env cache).2 = cache ∧
    (bmFind cache img.uniqueID = none →
      bmFind (getROPixels img CachingHint.disallow env cache).2 img.uniqueID = none) ∧
    (bmFind cache img.uniqueID = none → env.tryAllocPixels = true → env.getPixels = true →
      (getROPixels img CachingHint.disallow env cache).1 = some env.decoded) := by
  cases hfind : bmFind cache img.uniqueID with
  | some bm => simp [getROPixels, hfind]
  | none =>
      cases hta : env.tryAllocPixels <;> cases hgp : env.getPixels <;>
        simp [getROPixels, hfind, hta, hgp]

/-- C3 (counterexample).  With an empty YUV planes cache, a generator whose
`queryYUVA8` succeeds, and a `SkResourceCache::NewCachedData` that returns
null, `getPlanes` reaches `data->writable_data()` on the null allocation: the
claim that no null allocation result is ever dereferenced fails. -/
theorem C3_null_alloc_counterexample :
    (getPlanes ⟨⟨1, 1, 0, 0, some 0, 7, some 99⟩, ⟨1, 1, 0, 0, some 0⟩, 7⟩
      ⟨some ⟨4, 2, 2, 0, 4, 2, 2, 0⟩, fun _ => none, true⟩ []).1 =
      PlanesOutcome.nullDeref := by
  decide

/-- C3 (amended).  A `BitmapCache::Alloc` failure makes `getROPixels` fail
with the bitmap cache unchanged; but a null `SkResourceCache::NewCachedData`
result in the miss path of `getPlanes` is dereferenced without a check (the
YUV planes cache itself is still unchanged at that point). -/
theorem C3_alloc_failure_amended (img : SkImage_Lazy) (envR : ROPixelsEnv)
    (envP : PlanesEnv) (cacheB : List (Nat × Nat)) (cacheY : List (Nat × YuvEntry))
    (s : SkYUVASizeInfo) :
    (bmFind cacheB img.uniqueID = none → envR.cacheAlloc = false →
      getROPixels img CachingHint.allow envR cacheB = (none, cacheB)) ∧
    (yuvFind cacheY img.shared.uniqueID = none → envP.queryResult = some s →
      envP.allocResult (totalSize s) = none →
      getPlanes img envP cacheY = (PlanesOutcome.nullDeref, cacheY)) := by
  constructor
  · intro hfind halloc
    simp [getROPixels, hfind, halloc]
  · intro hfind hquery halloc
    simp [getPlanes, hfind, hquery, halloc]

/-! ## Claim theorems: YUV planar layout and cache keys -/

/-- The hit-path and miss-path layout loops of `getPlanes` compute the same
plane addresses: they are transcriptions of textually identical code. -/
theorem hitPlanes_eq_missPlanes (base : Nat) (s : SkYUVASizeInfo) :
    ∀ i, hitPlanes base s i = missPlanes base s i := by
  intro i
  induction i with
  | zero => rfl
  | succ i ih => simp only [hitPlanes, missPlanes, ih]

/-- When no plane slot in `1..i` is empty, the chained layout of `getPlanes`
agrees with the base-plus-partial-sums formula. -/
theorem hitPlanes_no_gap (base : Nat) (s : SkYUVASizeInfo) :
    ∀ i, (∀ j, 1 ≤ j → j ≤ i → s.widthBytes j ≠ 0) →
      hitPlanes base s i = base + planeOffsetSum s i := by
  intro i
  induction i with
  | zero => intro _; rfl
  | succ i ih =>
      intro h
      have hne : s.widthBytes (i + 1) ≠ 0 :=
        h (i + 1) (Nat.succ_le_succ (Nat.zero_le i)) (Nat.le_refl _)
      rw [hitPlanes, if_neg hne, planeOffsetSum,
        ih (fun j h1 h2 => h j h1 (Nat.le_succ_of_le h2)), Nat.add_assoc]

/-- C4 (counterexample).  Plane slot 1 is empty while plane slot 2 is not
(row bytes `4, 0, 4, 0`, heights `4, 0, 4, 0`, base address 1): the code
chains plane 2 off the null plane 1 and computes address `0`, while the
claimed formula `plane0 + Σ_{j<2} row_bytes[j]*height[j]` gives `17`. -/
theorem C4_gap_layout_counterexample :
    (⟨4, 0, 4, 0, 4, 0, 4, 0⟩ : SkYUVASizeInfo).widthBytes 2 ≠ 0 ∧
    hitPlanes 1 ⟨4, 0, 4, 0, 4, 0, 4, 0⟩ 2 = 0 ∧
    specPlanePtr 1 ⟨4, 0, 4, 0, 4, 0, 4, 0⟩ 2 = 17 ∧
    hitPlanes 1 ⟨4, 0, 4, 0, 4, 0, 4, 0⟩ 2 ≠ specPlanePtr 1 ⟨4, 0, 4, 0, 4, 0, 4, 0⟩ 2 := by
  decide

/-- C4 (amended).  For a non-empty plane `i` all of whose preceding slots
`1..i-1` are also non-empty, the plane address computed by `getPlanes` equals
plane 0 plus the sum over `j < i` of `row_bytes[j] * height[j]`; an empty
plane (at a positive index) maps to the null address; and the hit-path and
miss-path layout computations agree unconditionally, so both paths yield
equal plane addresses for equal cached metadata. -/
theorem C4_plane_layout_amended (base : Nat) (s : SkYUVASizeInfo) (i : Nat) :
    (s.widthBytes i ≠ 0 → (∀ j, 1 ≤ j → j < i → s.widthBytes j ≠ 0) →
      hitPlanes base s i = specPlanePtr base s i) ∧
    (i ≠ 0 → s.widthBytes i = 0 → hitPlanes base s i = 0) ∧
    hitPlanes base s i = missPlanes base s i := by
  refine ⟨?_, ?_, hitPlanes_eq_missPlanes base s i⟩
  · intro hne hnogap
    rw [specPlanePtr]
    exact hitPlanes_no_gap base s i fun j h1 h2 =>
      (Nat.lt_or_ge j i).elim (hnogap j h1) (fun hge => (Nat.le_antisymm h2 hge) ▸ hne)
  · intro hi hempty
    cases i with
    | zero => exact absurd rfl hi
    | succ i => rw [hitPlanes, if_pos hempty]

/-- C10.  `getPlanes` looks the YUV planes cache up under the generator's
unique id but adds, on a successful miss, under the image's unique id.  So a
recolored image (image id different from generator id) adds an entry that no
later lookup through that shared generator will find; yet such an image does
hit an entry that the un-recolored base image added, because the base image's
id equals the generator's. -/
theorem C10_yuv_cache_keys :
    (∀ (img : SkImage_Lazy) (envP : PlanesEnv) (cache : List (Nat × YuvEntry))
        (s : SkYUVASizeInfo) (base : Nat),
      yuvFind cache img.shared.uniqueID = none →
      envP.queryResult = some s →
      envP.allocResult (totalSize s) = some base →
      envP.getPlanesOk = true →
      (getPlanes img envP cache).2 = (img.uniqueID, ⟨base, s⟩) :: cache ∧
      (img.uniqueID ≠ img.shared.uniqueID →
        ∀ img2 : SkImage_Lazy, img2.shared.uniqueID = img.shared.uniqueID →
          yuvFind (getPlanes img envP cache).2 img2.shared.uniqueID = none)) ∧
    (∀ (imgB imgR : SkImage_Lazy) (envB envR : PlanesEnv)
        (cache : List (Nat × YuvEntry)) (s : SkYUVASizeInfo) (base : Nat),
      imgB.uniqueID = imgB.shared.uniqueID →
      imgR.shared = imgB.shared →
      yuvFind cache imgB.shared.uniqueID = none →
      envB.queryResult = some s →
      envB.allocResult (totalSize s) = some base →
      envB.getPlanesOk = true →
      getPlanes imgR envR (getPlanes imgB envB cache).2 =
        (PlanesOutcome.ok s (hitPlanes base s 0) (hitPlanes base s 1)
          (hitPlanes base s 2) (hitPlanes base s 3), (getPlanes imgB envB cache).2)) := by
  constructor
  · intro img envP cache s base hfind hquery halloc hok
    have hres : (getPlanes img envP cache).2 = (img.uniqueID, ⟨base, s⟩) :: cache := by
      simp [getPlanes, hfind, hquery, halloc, hok]
    refine ⟨hres, ?_⟩
    intro hne img2 hsh
    rw [hres, hsh, yuvFind, List.find?]
    have : (img.uniqueID == img.shared.uniqueID) = false := by
      exact beq_eq_false_iff_ne.2 hne
    rw [this]
    exact hfind
  · intro imgB imgR envB envR cache s base hbase hsh hfind hquery halloc hok
    have hres : (getPlanes imgB envB cache).2 = (imgB.uniqueID, ⟨base, s⟩) :: cache := by
      simp [getPlanes, hfind, hquery, halloc, hok]
    have hhit : yuvFind (getPlanes imgB envB cache).2 imgR.shared.uniqueID =
        some ⟨base, s⟩ := by
      rw [hres, hsh, ← hbase, yuvFind, List.find?, beq_self_eq_true]
      rfl
    rw [getPlanes, hhit]

/-! ## Claim theorems: texture cascade -/

/-- Stage 4 passes the computed `GrColorType` through unchanged. -/
theorem lockStage4_usedCT (env : CascadeEnv) (ct : GrColorType)
    (b : Option GrSurfaceProxy) : (lockStage4 env ct b).usedCT = ct := by
  simp only [lockStage4]
  repeat' split
  all_goals rfl

/-- Stage 3 passes the computed `GrColorType` through unchanged. -/
theorem lockStage3_usedCT (env : CascadeEnv) (ct : GrColorType)
    (b : Option GrSurfaceProxy) : (lockStage3 env ct b).usedCT = ct := by
  simp only [lockStage3]
  repeat' split
  all_goals first | rfl | apply lockStage4_usedCT

/-- Stage 2 passes the computed `GrColorType` through unchanged. -/
theorem lockStage2_usedCT (env : CascadeEnv) (ct : GrColorType)
    (b : Option GrSurfaceProxy) : (lockStage2 env ct b).usedCT = ct := by
  simp only [lockStage2]
  repeat' split
  all_goals first | rfl | apply lockStage3_usedCT

/-- The whole cascade reports the `GrColorType` computed once, up front, by
`colorTypeOfLockTextureProxy`. -/
theorem lockTextureProxyView_usedCT (env : CascadeEnv) (binding : Option GrSurfaceProxy) :
    (lockTextureProxyView env binding).usedCT =
      colorTypeOfLockTextureProxy env.toGpu env.validFormat env.imageColorType := by
  simp only [lockTextureProxyView]
  repeat' split
  all_goals first | rfl | apply lockStage2_usedCT

/-- Stages 2–4 record exactly the tail path's histogram value, and return the
empty view exactly when that value is `Failure`. -/
theorem lockStage2_records (env : CascadeEnv) (ct : GrColorType)
    (b : Option GrSurfaceProxy) :
    (lockStage2 env ct b).records = [lockTailPath env] ∧
    ((lockStage2 env ct b).view = none ↔ lockTailPath env = LockTexturePath.failure) := by
  rcases hnat : env.nativeResult with _ | nv
  · by_cases hyuv : (env.mipMapped = false ∧ env.disableGpuYUVConversion = false)
    · rcases hyv : env.yuvResult
          (!decide (env.texGenPolicy = GrImageTexGenPolicy.newUncachedUnbudgeted)) with _ | v
      · by_cases hro : env.roPixelsResult
            (if env.texGenPolicy = GrImageTexGenPolicy.draw then
              CachingHint.allow else CachingHint.disallow) = true
        · rcases hmk : env.makerResult
              (if env.texGenPolicy = GrImageTexGenPolicy.newUncachedUnbudgeted then
                GrImageTexGenPolicy.newUncachedUnbudgeted else
                GrImageTexGenPolicy.newUncachedBudgeted) with _ | mv
          · simp [lockStage2, lockStage3, lockStage4, lockTailPath,
              hnat, hyuv, hyv, hro, hmk]
          · simp [lockStage2, lockStage3, lockStage4, lockTailPath,
              hnat, hyuv, hyv, hro, hmk]
        · simp [lockStage2, lockStage3, lockStage4, lockTailPath, hnat, hyuv, hyv, hro]
      · simp [lockStage2, lockStage3, lockTailPath, hnat, hyuv, hyv]
    · have hcond : ¬(env.mipMapped = false ∧ env.disableGpuYUVConversion = false ∧
          (env.yuvResult
            (!decide (env.texGenPolicy = GrImageTexGenPolicy.newUncachedUnbudgeted))).isSome
            = true) :=
        fun h => hyuv ⟨h.1, h.2.1⟩
      by_cases hro : env.roPixelsResult
          (if env.texGenPolicy = GrImageTexGenPolicy.draw then
            CachingHint.allow else CachingHint.disallow) = true
      · rcases hmk : env.makerResult
            (if env.texGenPolicy = GrImageTexGenPolicy.newUncachedUnbudgeted then
              GrImageTexGenPolicy.newUncachedUnbudgeted else
              GrImageTexGenPolicy.newUncachedBudgeted) with _ | mv
        · simp [lockStage2, lockStage3, lockStage4, lockTailPath, hnat, hyuv, hcond,
            hro, hmk]
        · simp [lockStage2, lockStage3, lockStage4, lockTailPath, hnat, hyuv, hcond,
            hro, hmk]
      · simp [lockStage2, lockStage3, lockStage4, lockTailPath, hnat, hyuv, hcond, hro]
  · simp [lockStage2, lockTailPath, hnat]

/-- The tail path never takes the deprecated `Compressed` value. -/
theorem lockTailPath_mem (env : CascadeEnv) :
    lockTailPath env ∈ [LockTexturePath.failure, LockTexturePath.preExisting,
      LockTexturePath.native, LockTexturePath.yuv, LockTexturePath.rgba] := by
  rw [lockTailPath]
  split_ifs <;> simp

/-- C1.  Every `lockTextureProxyView` call records exactly one
`LockTexturePath` histogram value, that value is the first stage of the
cascade (cache hit, native generation, YUV planar, RGBA fallback, in that
order) that succeeds, the value is never the deprecated `Compressed`, and the
empty view is returned exactly when every stage fails or is skipped — the
`Failure` outcome. -/
theorem C1_lock_texture_histogram (env : CascadeEnv) (binding : Option GrSurfaceProxy) :
    (lockTextureProxyView env binding).records = [lockTexturePathSpec env binding] ∧
    ((lockTextureProxyView env binding).view = none ↔
      lockTexturePathSpec env binding = LockTexturePath.failure) ∧
    lockTexturePathSpec env binding ∈ [LockTexturePath.failure,
      LockTexturePath.preExisting, LockTexturePath.native, LockTexturePath.yuv,
      LockTexturePath.rgba] := by
  by_cases hkey : env.texGenPolicy = GrImageTexGenPolicy.draw
  · cases binding with
    | some p =>
        have hspec : lockTexturePathSpec env (some p) = LockTexturePath.preExisting := by
          simp [lockTexturePathSpec, hkey]
        rw [hspec]
        by_cases hmip : (env.mipMapped = false ∨ p.mipmapped = true)
        · simp [lockTextureProxyView, hkey, hmip]
        · rcases hcp : env.copyResult with _ | mv <;>
            simp [lockTextureProxyView, hkey, hmip, hcp, installKey]
    | none =>
        have hspec : lockTexturePathSpec env none = lockTailPath env := by
          simp [lockTexturePathSpec]
        have hcode : lockTextureProxyView env none = lockStage2 env
            (colorTypeOfLockTextureProxy env.toGpu env.validFormat env.imageColorType)
            none := by
          simp [lockTextureProxyView, hkey]
        rw [hspec, hcode]
        exact ⟨(lockStage2_records env _ none).1, (lockStage2_records env _ none).2,
          lockTailPath_mem env⟩
  · have hspec : lockTexturePathSpec env binding = lockTailPath env := by
      simp [lockTexturePathSpec, hkey]
    have hcode : lockTextureProxyView env binding = lockStage2 env
        (colorTypeOfLockTextureProxy env.toGpu env.validFormat env.imageColorType)
        binding := by
      simp [lockTextureProxyView, hkey]
    rw [hspec, hcode]
    exact ⟨(lockStage2_records env _ binding).1, (lockStage2_records env _ binding).2,
      lockTailPath_mem env⟩

/-- C6.  Stage-1 mipmap upgrade: when the unique key is valid, a non-mipped
proxy is bound to it and a mipmapped texture is requested, then on a
successful base-to-mipmap copy the call returns the copy, with the unique key
moved from the old proxy onto it (and the returned view is mipmapped whenever
the fresh mipmapped surface is); on a failed copy the call returns the
original non-mipped view best-effort and leaves the key binding in place. -/
theorem C6_mipmap_upgrade (env : CascadeEnv) (p : GrSurfaceProxy)
    (hpol : env.texGenPolicy = GrImageTexGenPolicy.draw)
    (hreq : env.mipMapped = true) (hnm : p.mipmapped = false) :
    (∀ q, env.copyResult = some q →
      (lockTextureProxyView env (some p)).view = some q ∧
      (lockTextureProxyView env (some p)).binding = some q ∧
      (lockTextureProxyView env (some p)).records = [LockTexturePath.preExisting] ∧
      (q.mipmapped = true →
        (lockTextureProxyView env (some p)).view.map GrSurfaceProxy.mipmapped =
          some true)) ∧
    (env.copyResult = none →
      (lockTextureProxyView env (some p)).view = some p ∧
      (lockTextureProxyView env (some p)).binding = some p ∧
      (lockTextureProxyView env (some p)).records = [LockTexturePath.preExisting]) := by
  constructor
  · intro q hq
    refine ⟨?_, ?_, ?_, ?_⟩ <;>
      simp [lockTextureProxyView, hpol, hreq, hnm, hq, installKey]
  · intro hq
    refine ⟨?_, ?_, ?_⟩ <;> simp [lockTextureProxyView, hpol, hreq, hnm, hq]

/-- Witness for C6 at a concrete environment: a cached non-mipped proxy
(id 1), a requested mipmap, and a copy that succeeds with the mipped proxy
(id 2) — the call returns and re-keys onto proxy 2; with the copy failing it
returns and keeps proxy 1. -/
theorem C6_mipmap_upgrade_witness :
    ((lockTextureProxyView ⟨GrImageTexGenPolicy.draw, true, some ⟨2, true⟩, none, false,
        fun _ => none, fun _ => false, fun _ => none, GrColorType.other, fun _ => true, 0⟩
        (some ⟨1, false⟩)).view = some ⟨2, true⟩ ∧
      (lockTextureProxyView ⟨GrImageTexGenPolicy.draw, true, some ⟨2, true⟩, none, false,
        fun _ => none, fun _ => false, fun _ => none, GrColorType.other, fun _ => true, 0⟩
        (some ⟨1, false⟩)).binding = some ⟨2, true⟩ ∧
      (lockTextureProxyView ⟨GrImageTexGenPolicy.draw, true, some ⟨2, true⟩, none, false,
        fun _ => none, fun _ => false, fun _ => none, GrColorType.other, fun _ => true, 0⟩
        (some ⟨1, false⟩)).records = [LockTexturePath.preExisting] ∧
      ((⟨2, true⟩ : GrSurfaceProxy).mipmapped = true →
        (lockTextureProxyView ⟨GrImageTexGenPolicy.draw, true, some ⟨2, true⟩, none, false,
          fun _ => none, fun _ => false, fun _ => none, GrColorType.other, fun _ => true, 0⟩
          (some ⟨1, false⟩)).view.map GrSurfaceProxy.mipmapped = some true)) ∧
    ((lockTextureProxyView ⟨GrImageTexGenPolicy.draw, true, none, none, false,
        fun _ => none, fun _ => false, fun _ => none, GrColorType.other, fun _ => true, 0⟩
        (some ⟨1, false⟩)).view = some ⟨1, false⟩ ∧
      (lockTextureProxyView ⟨GrImageTexGenPolicy.draw, true, none, none, false,
        fun _ => none, fun _ => false, fun _ => none, GrColorType.other, fun _ => true, 0⟩
        (some ⟨1, false⟩)).binding = some ⟨1, false⟩ ∧
      (lockTextureProxyView ⟨GrImageTexGenPolicy.draw, true, none, none, false,
        fun _ => none, fun _ => false, fun _ => none, GrColorType.other, fun _ => true, 0⟩
        (some ⟨1, false⟩)).records = [LockTexturePath.preExisting]) := by
  exact ⟨(C6_mipmap_upgrade _ ⟨1, false⟩ rfl rfl rfl).1 ⟨2, true⟩ rfl,
    (C6_mipmap_upgrade _ ⟨1, false⟩ rfl rfl rfl).2 rfl⟩

/-- C9.  The `GrColorType` a `lockTextureProxyView` call uses is the one
`colorTypeOfLockTextureProxy` computes: the GPU conversion of the image's
color type, except that `kRGBA_8888` is substituted when the caps' default
backend format for it is invalid. -/
theorem C9_lock_texture_color_type (env : CascadeEnv) (binding : Option GrSurfaceProxy)
    (toGpu : Nat → GrColorType) (validFormat : GrColorType → Bool) (ct : Nat) :
    (lockTextureProxyView env binding).usedCT =
      colorTypeOfLockTextureProxy env.toGpu env.validFormat env.imageColorType ∧
    (validFormat (toGpu ct) = true →
      colorTypeOfLockTextureProxy toGpu validFormat ct = toGpu ct) ∧
    (validFormat (toGpu ct) = false →
      colorTypeOfLockTextureProxy toGpu validFormat ct = GrColorType.rgba8888) := by
  refine ⟨lockTextureProxyView_usedCT env binding, ?_, ?_⟩ <;>
    intro h <;> simp [colorTypeOfLockTextureProxy, h]

/-! ## Witnesses at concrete inputs -/

/-- Witness for C1: under the `kDraw` policy with every stage refusing, the
call records exactly `Failure` and returns the empty view. -/
theorem C1_lock_texture_histogram_witness :
    (lockTextureProxyView allRefuseEnv none).records = [LockTexturePath.failure] ∧
    (lockTextureProxyView allRefuseEnv none).view = none :=
  ⟨(C1_lock_texture_histogram allRefuseEnv none).1.trans (by decide),
    (C1_lock_texture_histogram allRefuseEnv none).2.1.2 (by decide)⟩

/-- Witness for C2 at a concrete input: recoloring the base image (unique
id 7) to color type 1 and color space `some 5` yields the image with unique
id 8, different from 7. -/
theorem C2_recolor_identity_witness :
    recoloredImage.uniqueID ≠ sampleImage.uniqueID :=
  C2_recolor_identity_amended.1 sampleImage 1 5 none 8 recoloredImage
    (some recoloredImage) 9 (by decide) (fun m h => nomatch h) (by decide) (by decide)

/-- Witness for C3 at concrete inputs: a failed `SkBitmapCache::Alloc` makes
`getROPixels` fail with the empty cache unchanged, and a null
`NewCachedData` result makes `getPlanes` dereference the null allocation. -/
theorem C3_alloc_failure_witness :
    getROPixels sampleImage CachingHint.allow ⟨false, true, true, 42⟩ [] = (none, []) ∧
    getPlanes sampleImage ⟨some sampleSize, fun _ => none, true⟩ [] =
      (PlanesOutcome.nullDeref, []) :=
  ⟨(C3_alloc_failure_amended sampleImage ⟨false, true, true, 42⟩
      ⟨some sampleSize, fun _ => none, true⟩ [] [] sampleSize).1 rfl rfl,
    (C3_alloc_failure_amended sampleImage ⟨false, true, true, 42⟩
      ⟨some sampleSize, fun _ => none, true⟩ [] [] sampleSize).2 rfl rfl rfl⟩

/-- Witness for C4 at a concrete input: over `sampleSize` (no gap below
plane 2) the computed address of plane 2 matches the claimed formula, the
empty plane 3 maps to the null address, and the hit and miss layouts agree. -/
theorem C4_plane_layout_witness :
    hitPlanes 1 sampleSize 2 = specPlanePtr 1 sampleSize 2 ∧
    hitPlanes 1 sampleSize 3 = 0 ∧
    hitPlanes 1 sampleSize 2 = missPlanes 1 sampleSize 2 :=
  ⟨(C4_plane_layout_amended 1 sampleSize 2).1 (by decide)
      (fun j h1 h2 => by
        have hj : j = 1 := by omega
        subst hj
        decide),
    (C4_plane_layout_amended 1 sampleSize 3).2.1 (by decide) (by decide),
    (C4_plane_layout_amended 1 sampleSize 2).2.2⟩

/-- Witness for C5 at a concrete input: a disallowed-caching call on the
empty cache leaves it empty and still produces the decoded pixels. -/
theorem C5_disallow_hint_no_cache_witness :
    (getROPixels sampleImage CachingHint.disallow sampleROEnv []).2 = [] ∧
    bmFind (getROPixels sampleImage CachingHint.disallow sampleROEnv []).2
      sampleImage.uniqueID = none ∧
    (getROPixels sampleImage CachingHint.disallow sampleROEnv []).1 = some 42 :=
  ⟨(C5_disallow_hint_no_cache sampleImage sampleROEnv []).1,
    (C5_disallow_hint_no_cache sampleImage sampleROEnv []).2.1 rfl,
    (C5_disallow_hint_no_cache sampleImage sampleROEnv []).2.2 rfl rfl rfl⟩

/-- Witness for C7 at a concrete input: the recolored image (fresh unique
id 8 against the generator's 7) has null `onRefEncoded`. -/
theorem C7_ref_encoded_witness :
    onRefEncoded recoloredImage = none :=
  C7_ref_encoded_identity.2 sampleImage 1 (some 5) none 8 recoloredImage
    (some recoloredImage) 9 (by decide) (by decide) rfl

/-- Witness for C8 at concrete inputs: a call matching the memoized child
returns it untouched, and a call on the empty-info generator fails leaving
the memo slot and the counter unchanged. -/
theorem C8_recolor_memo_slot_witness :
    onMakeColorTypeAndColorSpace sampleImage 1 (some 5) (some recoloredImage) 9 =
      (some recoloredImage, some recoloredImage, 9) ∧
    onMakeColorTypeAndColorSpace emptyGenImage 1 (some 0) none 4 = (none, none, 4) :=
  ⟨C8_recolor_memo_slot.1 sampleImage 1 (some 5) (some recoloredImage) recoloredImage 9
      rfl rfl (by decide),
    C8_recolor_memo_slot.2.2 emptyGenImage 1 (some 0) none 4
      (fun m h => nomatch h) (by decide)⟩

/-- Witness for C9 at concrete inputs: with a valid backend format the
converted color type is used; with an invalid one `kRGBA_8888` is
substituted. -/
theorem C9_lock_texture_color_type_witness :
    colorTypeOfLockTextureProxy GrColorType.other (fun _ => true) 3 = GrColorType.other 3 ∧
    colorTypeOfLockTextureProxy GrColorType.other (fun _ => false) 3 =
      GrColorType.rgba8888 :=
  ⟨(C9_lock_texture_color_type allRefuseEnv none GrColorType.other (fun _ => true) 3).2.1
      rfl,
    (C9_lock_texture_color_type allRefuseEnv none GrColorType.other (fun _ => false) 3).2.2
      rfl⟩

/-- Witness for C10 at concrete inputs: after the base image's successful
miss populates the cache under unique id 7, the recolored image (unique id 8,
same shared generator) hits that entry and reuses the cached layout. -/
theorem C10_yuv_cache_keys_witness :
    getPlanes recoloredImage samplePlanesEnv
        (getPlanes sampleImage samplePlanesEnv []).2 =
      (PlanesOutcome.ok sampleSize (hitPlanes 100 sampleSize 0)
        (hitPlanes 100 sampleSize 1) (hitPlanes 100 sampleSize 2)
        (hitPlanes 100 sampleSize 3), (getPlanes sampleImage samplePlanesEnv []).2) :=
  C10_yuv_cache_keys.2 sampleImage recoloredImage samplePlanesEnv samplePlanesEnv []
    sampleSize 100 rfl rfl rfl rfl rfl rfl

end Skia
